import Mathlib

/-!
Verification of `swift_logging_frames_filtering.py`, an LLDB helper script
that renders a filtered backtrace (`filtered_backtrace`, registered as `bt`)
and toggles a process-wide filtering flag (`toggle_filter`, registered as
`toggle-tasklocal-frames`).

The embedding models the Python code directly:
  * a stack frame is an id, an optional function name and a display string
    (host-owned data, read-only to the script);
  * Python truthiness of the optional function name, of the parsed
    `max_frames` value and of the command string is made explicit;
  * `re.search` against the three fixed patterns is modelled by a substring
    matcher (the first two patterns are literals once the escaped dots are
    resolved; the third is a literal, then `\d+`, then a literal, and since
    the character after `\d+` in the pattern is a space, greedy digit
    consumption with no backtracking is exact);
  * printing is modelled by returning the list of printed lines;
  * the module-global `_filter_enabled` is threaded explicitly as state.
-/

/-- A stack frame as presented by the host debugger: `GetFrameID`, the
optional `GetFunctionName` result (Python may return `None`), and the
textual display form used by `print(f"... {frame}")`. -/
structure Frame where
  frameId : Nat
  functionName : Option String
  display : String
deriving Repr, DecidableEq

/-- Initial value of the module global `_filter_enabled = True`. -/
def filter_enabled_init : Bool := true

/-- First fixed pattern, `TaskLocal\.withValue`: a literal after resolving
the escaped dot. -/
def pat1 : List Char := "TaskLocal.withValue".toList

/-- Second fixed pattern, `GlobalLoggerContext\.withTaskLocalLoggerInline`:
a literal after resolving the escaped dot. -/
def pat2 : List Char := "GlobalLoggerContext.withTaskLocalLoggerInline".toList

/-- Head literal of the third pattern, before `\d+`. -/
def pat3Head : List Char := "closure #".toList

/-- Tail literal of the third pattern, after `\d+`. -/
def pat3Tail : List Char := " in static GlobalLoggerContext.withTaskLocalLoggerInline".toList

/-- Drop a literal from the front of a character list, or fail. -/
def dropLit : List Char → List Char → Option (List Char)
  | [], cs => some cs
  | _ :: _, [] => none
  | p :: ps, c :: cs => if c = p then dropLit ps cs else none

/-- Does the haystack contain the needle as a contiguous substring?
(`re.search` semantics for a literal pattern.) -/
def containsSub (needle : List Char) : List Char → Bool
  | [] => needle.isEmpty
  | c :: t => needle.isPrefixOf (c :: t) || containsSub needle t

/-- Match the third pattern anchored at the start of `cs`: the head
literal, then one or more ASCII digits, then the tail literal. -/
def matchPat3At (cs : List Char) : Bool :=
  match dropLit pat3Head cs with
  | none => false
  | some rest =>
    !(rest.takeWhile Char.isDigit).isEmpty &&
      pat3Tail.isPrefixOf (rest.dropWhile Char.isDigit)

/-- `re.search` for the third pattern: try every start position. -/
def searchPat3 : List Char → Bool
  | [] => false
  | c :: t => matchPat3At (c :: t) || searchPat3 t

/-- `any(re.search(pattern, frame_name) for pattern in filter_patterns)`. -/
def matchesAnyPattern (cs : List Char) : Bool :=
  containsSub pat1 cs || containsSub pat2 cs || searchPat3 cs

/-- Python truthiness of `frame_name` (`None` and `""` are falsy). -/
def nameTruthy : Option String → Bool
  | none => false
  | some s => !s.toList.isEmpty

/-- `should_skip` for one frame name: starts `False`, and is set to the
pattern test only when `_filter_enabled and frame_name` is truthy. -/
def shouldSkip (enabled : Bool) (name : Option String) : Bool :=
  if enabled && nameTruthy name then
    matchesAnyPattern ((name.getD "").toList)
  else false

/-- The printed line `f"frame #{frame.GetFrameID()}: {frame}"`. -/
def renderLine (f : Frame) : String :=
  "frame #" ++ toString f.frameId ++ ": " ++ f.display

/-- Python truthiness of `max_frames` in `if max_frames and ...`:
`None` and `0` are falsy. Combined with `frame_count >= max_frames`,
this is the loop's break condition. -/
def pyBreak (maxFrames : Option Int) (frameCount : Nat) : Bool :=
  match maxFrames with
  | none => false
  | some m => decide (m ≠ 0) && decide ((frameCount : Int) ≥ m)

/-- The `for frame in thread` loop of `filtered_backtrace`, returning the
list of printed lines; `frameCount` is the running printed-frame counter. -/
def btLoop (enabled : Bool) (maxFrames : Option Int) : Nat → List Frame → List String
  | _count, [] => []
  | count, f :: rest =>
    if pyBreak maxFrames count then []
    else if shouldSkip enabled f.functionName then
      btLoop enabled maxFrames count rest
    else
      renderLine f :: btLoop enabled maxFrames (count + 1) rest

/-- Nonempty all-ASCII-digit parse of the magnitude, as `int()` accepts. -/
def pyParseDigits (cs : List Char) : Option Nat :=
  if cs.isEmpty then none
  else if cs.all Char.isDigit then
    some (cs.foldl (fun a c => a * 10 + (c.toNat - 48)) 0)
  else none

/-- The whitespace stripping `int()` performs on its string argument. -/
def pyStrip (cs : List Char) : List Char :=
  ((cs.dropWhile Char.isWhitespace).reverse.dropWhile Char.isWhitespace).reverse

/-- Python `int(command)` for the decimal strings that can reach this call:
surrounding whitespace is stripped, an optional single sign precedes one or
more digits; anything else raises `ValueError`, modelled as `none`. -/
def pyParseInt (s : String) : Option Int :=
  match pyStrip s.toList with
  | '-' :: rest => (pyParseDigits rest).map (fun n => -(n : Int))
  | '+' :: rest => (pyParseDigits rest).map (fun n => (n : Int))
  | cs => (pyParseDigits cs).map (fun n => (n : Int))

/-- Lines 27-32: `max_frames = None`; when `command` is truthy (nonempty),
`max_frames = int(command)`, with `ValueError` swallowed. -/
def parseMaxFrames (command : String) : Option Int :=
  if command.isEmpty then none else pyParseInt command

/-- The body of `filtered_backtrace` after argument parsing, starting the
printed-frame counter at 0. -/
def filtered_backtrace_run (enabled : Bool) (maxFrames : Option Int)
    (frames : List Frame) : List String :=
  btLoop enabled maxFrames 0 frames

/-- `filtered_backtrace`: parse the optional count argument, then run the
filtered print loop over the selected thread's frames. -/
def filtered_backtrace (enabled : Bool) (command : String)
    (frames : List Frame) : List String :=
  filtered_backtrace_run enabled (parseMaxFrames command) frames

/-- `toggle_filter`: invert `_filter_enabled`, return the new value and the
line printed. -/
def toggle_filter (filterEnabled : Bool) : Bool × String :=
  let newState := !filterEnabled
  (newState,
    "Task-local frame filtering " ++ (if newState then "enabled" else "disabled"))

/-- The module's global state: the single boolean `_filter_enabled`. -/
structure ModuleState where
  filterEnabled : Bool
deriving Repr, DecidableEq

/-- `filtered_backtrace` as a state transformer on the module state.  The
source function contains no `global _filter_enabled` declaration and no
assignment to it; it only reads the flag, so the state component is
returned unchanged. -/
def filtered_backtrace_op (st : ModuleState) (command : String)
    (frames : List Frame) : ModuleState × List String :=
  (st, filtered_backtrace st.filterEnabled command frames)

/-- `toggle_filter` as a state transformer on the module state: it declares
`global _filter_enabled` and overwrites it with its negation. -/
def toggle_filter_op (st : ModuleState) : ModuleState × String :=
  let r := toggle_filter st.filterEnabled
  (⟨r.1⟩, r.2)

/-- The spec's print predicate: a frame is printed iff filtering is
disabled, or its name is absent, or its name matches none of the three
patterns. -/
def specPrinted (enabled : Bool) (f : Frame) : Bool :=
  !enabled ||
    (match f.functionName with
     | none => true
     | some s => !matchesAnyPattern s.toList)

theorem matchesAnyPattern_nil : matchesAnyPattern [] = false := by decide

theorem shouldSkip_eq_not_specPrinted (enabled : Bool) (f : Frame) :
    shouldSkip enabled f.functionName = !specPrinted enabled f := by
  cases hn : f.functionName with
  | none => cases enabled <;> simp [shouldSkip, specPrinted, nameTruthy, hn]
  | some s =>
    cases enabled with
    | false => simp [shouldSkip, specPrinted, nameTruthy, hn]
    | true =>
      simp only [shouldSkip, specPrinted, nameTruthy, hn, Option.getD_some,
        Bool.true_and, Bool.not_true, Bool.false_or, Bool.not_not]
      cases hl : s.toList with
      | nil => simp [matchesAnyPattern_nil]
      | cons c t => simp

theorem btLoop_none_eq (enabled : Bool) (frames : List Frame) :
    ∀ count : Nat, btLoop enabled none count frames =
      (frames.filter (specPrinted enabled)).map renderLine := by
  induction frames with
  | nil => intro count; rfl
  | cons f rest ih =>
    intro count
    have hk := shouldSkip_eq_not_specPrinted enabled f
    cases hp : specPrinted enabled f with
    | false =>
      have hs : shouldSkip enabled f.functionName = true := by rw [hk, hp]; rfl
      simp [btLoop, pyBreak, hs, List.filter_cons, hp, ih]
    | true =>
      have hs : shouldSkip enabled f.functionName = false := by rw [hk, hp]; rfl
      simp [btLoop, pyBreak, hs, List.filter_cons, hp, ih]

/-- C1: with no maxFrames limit in effect, `filtered_backtrace` prints a frame
iff filtering is disabled, or the frame's function name is absent, or the name
matches none of the three fixed patterns (regex search, not full match): the
output is exactly the spec predicate's filter, rendered in order. -/
theorem C1_printed_iff_spec (enabled : Bool) (frames : List Frame) :
    filtered_backtrace_run enabled none frames =
      (frames.filter (specPrinted enabled)).map renderLine :=
  btLoop_none_eq enabled frames 0

/-- C2: a frame skipped by the filter does not advance the printed-frame
counter; once the counter has reached a set (nonzero) maxFrames the loop
stops without examining any remaining frame; and `bt 1` on
`[#0 "main", #1 "helper", #2 "TaskLocal.withValue"]` with filtering enabled
prints exactly `frame #0: main`. -/
theorem C2_limit_and_skip_behavior :
    (∀ (enabled : Bool) (m : Int) (count : Nat) (frames : List Frame),
        m ≠ 0 → (count : Int) ≥ m →
        btLoop enabled (some m) count frames = []) ∧
    (∀ (enabled : Bool) (maxFrames : Option Int) (count : Nat) (f : Frame)
        (rest : List Frame),
        pyBreak maxFrames count = false →
        shouldSkip enabled f.functionName = true →
        btLoop enabled maxFrames count (f :: rest) =
          btLoop enabled maxFrames count rest) ∧
    filtered_backtrace true "1"
      [⟨0, some "main", "main"⟩, ⟨1, some "helper", "helper"⟩,
       ⟨2, some "TaskLocal.withValue", "TaskLocal.withValue"⟩] =
      ["frame #0: main"] := by
  refine ⟨?_, ?_, by decide⟩
  · intro enabled m count frames hm hge
    cases frames with
    | nil => rfl
    | cons f rest =>
      have hb : pyBreak (some m) count = true := by
        simp only [pyBreak, Bool.and_eq_true, decide_eq_true_eq]
        exact ⟨hm, hge⟩
      simp [btLoop, hb]
  · intro enabled maxFrames count f rest hbr hskip
    simp [btLoop, hbr, hskip]

theorem C2_limit_and_skip_behavior_witness :
    btLoop true (some 1) 1 [⟨1, some "helper", "helper"⟩] = [] ∧
    btLoop true none 0 [⟨2, some "TaskLocal.withValue", "x"⟩] =
      btLoop true none 0 [] :=
  ⟨C2_limit_and_skip_behavior.1 true 1 1 [⟨1, some "helper", "helper"⟩]
      (by decide) (by decide),
    C2_limit_and_skip_behavior.2.1 true none 0 ⟨2, some "TaskLocal.withValue", "x"⟩
      [] (by decide) (by decide)⟩

/-- C3 counterexample: with filtering enabled, the frame named `main` passes
the filter, yet `bt -1` prints nothing — the printed-frame counter 0 already
satisfies `0 >= -1`, so the loop breaks immediately, refuting "every frame
that passes the filter is printed" for negative arguments. -/
theorem C3_counterexample :
    shouldSkip true (some "main") = false ∧
    filtered_backtrace true "-1" [⟨0, some "main", "main"⟩] = [] :=
  ⟨by decide, by decide⟩

/-- C3 (amended): for every negative parsed maxFrames, the break condition
`max_frames and frame_count >= max_frames` is already true at counter 0
(any counter value is ≥ a negative number), so no frame is printed at all:
negative counts print nothing, rather than behaving like no limit. -/
theorem C3_negative_prints_nothing (enabled : Bool) (m : Int) (count : Nat)
    (frames : List Frame) (hm : m < 0) :
    btLoop enabled (some m) count frames = [] := by
  cases frames with
  | nil => rfl
  | cons f rest =>
    have hb : pyBreak (some m) count = true := by
      simp only [pyBreak, Bool.and_eq_true, decide_eq_true_eq]
      constructor
      · omega
      · omega
    simp [btLoop, hb]

theorem C3_negative_prints_nothing_witness :
    btLoop true (some (-1)) 0 [⟨0, some "main", "main"⟩] = [] :=
  C3_negative_prints_nothing true (-1) 0 [⟨0, some "main", "main"⟩] (by decide)

theorem btLoop_length_le (enabled : Bool) (m : Int) (hm : 0 < m)
    (frames : List Frame) :
    ∀ count : Nat, (btLoop enabled (some m) count frames).length ≤ m.toNat - count := by
  induction frames with
  | nil => intro count; simp [btLoop]
  | cons f rest ih =>
    intro count
    cases hb : pyBreak (some m) count with
    | true => simp [btLoop, hb]
    | false =>
      have hcount : (count : Int) < m := by
        by_contra hge
        push_neg at hge
        have ht : pyBreak (some m) count = true := by
          simp only [pyBreak, Bool.and_eq_true, decide_eq_true_eq]
          exact ⟨by omega, hge⟩
        rw [ht] at hb
        exact Bool.noConfusion hb
      cases hs : shouldSkip enabled f.functionName with
      | true =>
        simp only [btLoop, hb, hs]
        simpa using ih count
      | false =>
        have h2 := ih (count + 1)
        simp [btLoop, hb, hs]
        omega

/-- C4: for every positive nonzero maxFrames and every frame sequence, the
number of lines `filtered_backtrace` prints is at most maxFrames. -/
theorem C4_output_le_maxFrames (enabled : Bool) (m : Int) (frames : List Frame)
    (hm : 0 < m) :
    ((filtered_backtrace_run enabled (some m) frames).length : Int) ≤ m := by
  have h := btLoop_length_le enabled m hm frames 0
  simp only [filtered_backtrace_run]
  omega

theorem C4_output_le_maxFrames_witness :
    ((filtered_backtrace_run true (some 1)
        [⟨0, some "main", "main"⟩, ⟨1, some "helper", "helper"⟩]).length : Int) ≤ 1 :=
  C4_output_le_maxFrames true 1
    [⟨0, some "main", "main"⟩, ⟨1, some "helper", "helper"⟩] (by decide)

theorem btLoop_zero_eq_none (enabled : Bool) (frames : List Frame) :
    ∀ count : Nat,
      btLoop enabled (some 0) count frames = btLoop enabled none count frames := by
  induction frames with
  | nil => intro count; rfl
  | cons f rest ih =>
    intro count
    have hb : pyBreak (some 0) count = false := by simp [pyBreak]
    cases hs : shouldSkip enabled f.functionName <;>
      simp [btLoop, hb, hs, pyBreak, ih]

/-- C5: when the argument parses to the integer 0, `filtered_backtrace`
behaves exactly as with no limit: every frame passing the filter is printed
(the zero guard is falsy), not zero frames. -/
theorem C5_zero_is_unlimited (enabled : Bool) (command : String)
    (frames : List Frame) (h : parseMaxFrames command = some 0) :
    filtered_backtrace enabled command frames =
      (frames.filter (specPrinted enabled)).map renderLine := by
  simp only [filtered_backtrace, filtered_backtrace_run, h]
  rw [btLoop_zero_eq_none]
  exact btLoop_none_eq enabled frames 0

theorem C5_zero_is_unlimited_witness :
    parseMaxFrames "0" = some 0 ∧
    filtered_backtrace true "0" [⟨0, some "main", "main"⟩] =
      (([⟨0, some "main", "main"⟩] : List Frame).filter (specPrinted true)).map
        renderLine :=
  ⟨by decide, C5_zero_is_unlimited true "0" [⟨0, some "main", "main"⟩] (by decide)⟩

/-- C6: an argument string that does not parse as an integer is silently
ignored: the run is identical to invoking `filtered_backtrace` with no
argument (the empty command), with no limit applied. -/
theorem C6_unparseable_is_no_argument (enabled : Bool) (command : String)
    (frames : List Frame) (h : parseMaxFrames command = none) :
    filtered_backtrace enabled command frames =
      filtered_backtrace enabled "" frames := by
  simp only [filtered_backtrace, h]
  rfl

theorem C6_unparseable_is_no_argument_witness :
    parseMaxFrames "abc" = none ∧
    filtered_backtrace true "abc" [⟨0, some "main", "main"⟩] =
      filtered_backtrace true "" [⟨0, some "main", "main"⟩] :=
  ⟨by decide, C6_unparseable_is_no_argument true "abc" [⟨0, some "main", "main"⟩]
    (by decide)⟩

/-- C7: invoking `toggle_filter` twice restores the module state to its
original value — double toggle is the identity on the filtering flag. -/
theorem C7_double_toggle_identity (st : ModuleState) :
    (toggle_filter_op (toggle_filter_op st).1).1 = st := by
  cases st with
  | mk b => cases b <;> rfl

/-- C8: `_filter_enabled` is initialized to true at module load, and each
`toggle_filter` call inverts it and prints the post-toggle state as
"enabled" or "disabled". -/
theorem C8_init_true_toggle_reports_new_state :
    filter_enabled_init = true ∧
    (∀ b : Bool, (toggle_filter b).1 = !b) ∧
    (∀ b : Bool,
      (toggle_filter b).2 =
        if (toggle_filter b).1 then "Task-local frame filtering enabled"
        else "Task-local frame filtering disabled") := by
  refine ⟨rfl, fun b => rfl, fun b => ?_⟩
  cases b <;> rfl

/-- C9: `filtered_backtrace` never modifies `_filter_enabled`: for every
argument and frame sequence, the module state after the operation equals the
state before it (the source function contains no assignment to the global). -/
theorem C9_backtrace_preserves_state (st : ModuleState) (command : String)
    (frames : List Frame) :
    (filtered_backtrace_op st command frames).1 = st := rfl

/-- C10: a frame whose resolved function name is the empty string is treated
like a nameless frame: the truthiness guard makes `should_skip` false without
consulting the patterns, so the frame is printed even with filtering on. -/
theorem C10_empty_name_bypasses_filter (enabled : Bool) (f : Frame)
    (h : f.functionName = some "") :
    shouldSkip enabled f.functionName = false ∧
    shouldSkip enabled f.functionName = shouldSkip enabled none ∧
    (∀ (rest : List Frame) (count : Nat),
      btLoop enabled none count (f :: rest) =
        renderLine f :: btLoop enabled none (count + 1) rest) := by
  have hs : shouldSkip enabled f.functionName = false := by
    rw [h]; cases enabled <;> rfl
  refine ⟨hs, ?_, ?_⟩
  · rw [hs]; cases enabled <;> rfl
  · intro rest count
    simp [btLoop, pyBreak, hs]

theorem C10_empty_name_bypasses_filter_witness :
    shouldSkip true (some "") = false ∧
    btLoop true none 0 [⟨7, some "", "anon"⟩] =
      renderLine ⟨7, some "", "anon"⟩ :: btLoop true none 1 [] := by
  have h := C10_empty_name_bypasses_filter true ⟨7, some "", "anon"⟩ rfl
  exact ⟨h.1, h.2.2 [] 0⟩
